import Mathlib

/-!
Shallow embedding of `src/cli.py` (SDEC-CLI): the `Cli` command methods, the
argument handling they perform, and the display formatting of sensor
readouts.  External SDECv2 collaborators (SerialObj, SensorSentry, Parser)
are represented by their observable behaviour: device interactions appear as
explicit `DeviceOp` values in each command's result, and results produced by
the external package are passed in as parameters (oracles).  Where a claim
depends on SDECv2 code that is not part of this repository's files, the
definition is modelled from the spec and its doc comment says so.

Python specifics modelled here:
  * `shlex.split(line)` is abstracted: commands take the token list directly;
  * numbers are rationals (`ℚ`): the claims under study do not depend on
    binary floating point artefacts;
  * `int(s)` is modelled for strings of an optional sign followed by digits;
  * f-string `:.2f` formatting is modelled by `format2f` (round to two
    decimal places; the exact tie-breaking mode is irrelevant to the claims);
  * argparse is modelled without prefix abbreviation or `--opt=v` forms.
-/

/-- The `Status` enum of `SDECv2.SerialController`, as used by cli.py
(`Status.OPEN` is the only member the CLI names; `CLOSED`/`ERROR` stand for
the remaining states of the spec's SessionStatus). -/
inductive Status where
  | CLOSED
  | OPEN
  | ERROR
deriving DecidableEq, Repr

/-- A sensor: name and unit, as used by the display code. -/
structure Sensor where
  name : String
  unit : String
deriving DecidableEq, Repr

/-- One frame of sensor data: each sensor paired with its optional decoded
readout (`none` = absent value, distinct from a zero reading). -/
abbrev Frame := List (Sensor × Option ℚ)

/-- A preset: ordered field list (field name, decoded value).  Values are
modelled as integers (the spec calls them discrete configuration values). -/
abbrev Preset := List (String × Int)

/-- A device-side read/write operation a CLI command performs, in order. -/
inductive DeviceOp where
  | sentryDump
  | flashExtract (storePreset storeData : Bool)
  | uploadPreset (path : String)
  | downloadPreset (path : String)
  | verifyDownload
  | dashboardDump
  | init_comport (name : String) (baudrate : Nat) (timeout : Int)
  | open_comport
deriving DecidableEq, Repr

/-- Result of one CLI command: the printed lines and the device operations
performed (a command that returns early performs none). -/
structure CmdOut where
  output : List String
  ops : List DeviceOp
deriving DecidableEq, Repr

/-- The device as seen by polling: the frame returned by the k-th dump. -/
structure Device where
  frames : Nat → Frame

/-- The early-return result of every device command when no serial
connection is open: cli.py prints this and returns. -/
def noConn : CmdOut := { output := ["Error: No serial connection"], ops := [] }

/-- Python `str.upper()` restricted to the ASCII strings the CLI handles. -/
def pyUpper (s : String) : String := String.mk (s.data.map Char.toUpper)

/-- Digit character for `d < 10`. -/
def digitChar (d : Nat) : Char := Char.ofNat (48 + d)

/-- Decimal digits, most significant first; `fuel` bounds the recursion so
the definition is structural (any `fuel > 0` with `n < 10 ^ fuel` is enough). -/
def natCharsAux : Nat → Nat → List Char
  | 0, _ => []
  | fuel + 1, n =>
      if n < 10 then [digitChar n]
      else natCharsAux fuel (n / 10) ++ [digitChar (n % 10)]

/-- Decimal digits of a natural number, most significant first. -/
def natChars (n : Nat) : List Char := natCharsAux (n + 1) n

/-- Round a rational to the nearest integer (ties upward; the claims under
study do not depend on the tie-breaking mode of float formatting). -/
def ratRound (q : ℚ) : Int := ⌊q + 1 / 2⌋

/-- Python `f"{v:.2f}"` on the model's rationals: sign, integer part, a
point, and exactly two decimal digits. -/
def format2f (v : ℚ) : String :=
  let n : Int := ratRound (v * 100)
  let m : Nat := n.natAbs
  let sign : List Char := if n < 0 then ['-'] else []
  String.mk (sign ++ natChars (m / 100) ++ ['.', digitChar (m / 10 % 10), digitChar (m % 10)])

/-- Python `int(s)` on an ASCII token: optional sign then one or more
digits; anything else raises (here: `none`). -/
def pyInt? (s : String) : Option Int :=
  match s.data with
  | '-' :: rest =>
      if !rest.isEmpty && rest.all Char.isDigit then
        some (-(Int.ofNat (digitsVal rest))) else none
  | '+' :: rest =>
      if !rest.isEmpty && rest.all Char.isDigit then
        some (Int.ofNat (digitsVal rest)) else none
  | cs =>
      if !cs.isEmpty && cs.all Char.isDigit then
        some (Int.ofNat (digitsVal cs)) else none
where
  digitsVal (cs : List Char) : Nat :=
    cs.foldl (fun a c => a * 10 + (c.toNat - 48)) 0

/-- The sensor_dump / sensor_poll display line for one readout
(cli.py lines 53-57 and 88-99): `if readout:` is Python truthiness, so an
absent readout (`None`) and a readout of exactly zero both take the
else-branch and print the literal `0.0`. -/
def renderReadout (s : Sensor) (r : Option ℚ) : String :=
  match r with
  | some v =>
      if v = 0 then s.name ++ ": 0.0 " ++ s.unit
      else s.name ++ ": " ++ format2f v ++ " " ++ s.unit
  | none => s.name ++ ": 0.0 " ++ s.unit

/-- The value text dashboard_dump prints for one readout (cli.py lines
218-222): the numeric `:.2f` format when the readout `is not None`, the
literal `0.0` otherwise. -/
def dashValueText (r : Option ℚ) : String :=
  match r with
  | some v => format2f v
  | none => "0.0"

/-- The dashboard_dump display line for one readout (cli.py lines 218-222):
the branch tests `readout is not None`, not truthiness. -/
def dash_render (s : Sensor) (r : Option ℚ) : String :=
  s.name ++ ": " ++ dashValueText r ++ " " ++ s.unit

/-- argparse for sensor_poll (cli.py lines 75-78): `--timeout` and
`--count`, both `type=int`, in a required mutually exclusive group.  State
`(t, c)` holds the values seen so far; a conflict (one option given while
the other is already set), a missing or non-integer value, or an
unrecognized token is an error (argparse raises SystemExit). -/
def parsePollTokens :
    List String → Option Int → Option Int → Except String (Option Int × Option Int)
  | [], t, c => Except.ok (t, c)
  | tok :: rest, t, c =>
      if tok = "--timeout" then
        match rest with
        | [] => Except.error "argument --timeout: expected one argument"
        | v :: rest2 =>
            match pyInt? v with
            | none => Except.error "argument --timeout: invalid int value"
            | some n =>
                if c.isSome then
                  Except.error "argument --timeout: not allowed with argument --count"
                else parsePollTokens rest2 (some n) c
      else if tok = "--count" then
        match rest with
        | [] => Except.error "argument --count: expected one argument"
        | v :: rest2 =>
            match pyInt? v with
            | none => Except.error "argument --count: invalid int value"
            | some n =>
                if t.isSome then
                  Except.error "argument --count: not allowed with argument --timeout"
                else parsePollTokens rest2 t (some n)
      else Except.error "unrecognized arguments"

/-- Full sensor_poll argument parse: the group is `required=True`, so ending
with neither option set is also an error. -/
def parsePoll (tokens : List String) : Except String (Option Int × Option Int) :=
  match parsePollTokens tokens none none with
  | Except.error e => Except.error e
  | Except.ok (none, none) => Except.error "one of the arguments --timeout --count is required"
  | Except.ok r => Except.ok r

/-- argparse for flash_extract (cli.py lines 115-117): two `store_true`
flags; any other token is an error. -/
def parseFlagTokens : List String → Bool → Bool → Except String (Bool × Bool)
  | [], sp, sd => Except.ok (sp, sd)
  | tok :: rest, sp, sd =>
      if tok = "--store-preset" then parseFlagTokens rest true sd
      else if tok = "--store-data" then parseFlagTokens rest sp true
      else Except.error "unrecognized arguments"

/-- Modelled from the spec: `SensorSentry.poll` in count mode lives in the
external SDECv2 package, not under src/.  Spec §4.3: "produces exactly
`count` frames, one dump() per iteration"; `k` indexes the device
round-trips already made. -/
def pollCount (dev : Device) : Nat → Nat → List Frame
  | _, 0 => []
  | k, n + 1 => dev.frames k :: pollCount dev (k + 1) n

/-- Modelled from the spec: `SerialObj.close_comport` lives in the external
SDECv2 package, not under src/.  Spec §4.1: "close() ... idempotent —
closing an already-closed session is a no-op success, not an error"; §3:
status is Closed after explicit close.  Returns the new status and the
success flag cli.py tests. -/
def close_comport : Status → Status × Bool
  | _ => (Status.CLOSED, true)

/-- Modelled from the spec: `Parser.verify_preset` lives in the external
SDECv2 package, not under src/.  Spec §4.4: verify "downloads the device's
current preset and compares it field-by-field against `reference_preset`;
returns `true` iff every field matches exactly".  Presets built from the
same DeviceProfile carry the same ordered field list, so the comparison is
pointwise equality. -/
def verify_preset (reference downloaded : Preset) : Bool :=
  downloaded == reference

/-- cli.py `Cli.do_sensor_dump` (lines 36-57).  `dump` is the frame the
external `SensorSentry.dump` returns for the current device state. -/
def do_sensor_dump (status : Status) (tokens : List String) (dump : Frame) : CmdOut :=
  if status ≠ Status.OPEN then noConn
  else if tokens.length ≠ 0 then { output := ["Usage: sensor_dump"], ops := [] }
  else
    { output := dump.map (fun p => renderReadout p.1 p.2),
      ops := [DeviceOp.sentryDump] }

/-- cli.py `Cli.do_sensor_poll` (lines 59-99).  `dev` supplies the frames of
count-mode polling; `timeoutPoll` is the frame sequence the external
timeout-mode poll produces for a given timeout. -/
def do_sensor_poll (status : Status) (tokens : List String) (dev : Device)
    (timeoutPoll : Int → List Frame) : CmdOut :=
  if status ≠ Status.OPEN then noConn
  else
    match parsePoll tokens with
    | Except.error _ =>
        { output := ["Usage: sensor_poll <--timeout> <time> | <--count> <count>"], ops := [] }
    | Except.ok (t, c) =>
        match c with
        | some n =>
            let frames := pollCount dev 0 n.toNat
            { output := (frames.map (fun fr => fr.map (fun p => renderReadout p.1 p.2))).flatten,
              ops := frames.map (fun _ => DeviceOp.sentryDump) }
        | none =>
            match t with
            | some tv =>
                let frames := timeoutPoll tv
                { output := (frames.map (fun fr => fr.map (fun p => renderReadout p.1 p.2))).flatten,
                  ops := frames.map (fun _ => DeviceOp.sentryDump) }
            | none => { output := [], ops := [] }

/-- cli.py `Cli.do_flash_extract` (lines 101-129). -/
def do_flash_extract (status : Status) (tokens : List String) : CmdOut :=
  if status ≠ Status.OPEN then noConn
  else
    match parseFlagTokens tokens false false with
    | Except.error _ =>
        { output := ["Usage: flash_extract [--store-preset] [--store-data]"], ops := [] }
    | Except.ok (sp, sd) => { output := [], ops := [DeviceOp.flashExtract sp sd] }

/-- cli.py `Cli.do_upload_preset` (lines 131-153). -/
def do_upload_preset (status : Status) (tokens : List String) : CmdOut :=
  if status ≠ Status.OPEN then noConn
  else
    match tokens with
    | [p] => { output := [], ops := [DeviceOp.uploadPreset p] }
    | [] => { output := [], ops := [DeviceOp.uploadPreset "SDECv2/a_input/to_upload_preset.json"] }
    | _ => { output := ["Usage: upload_preset [path]"], ops := [] }

/-- cli.py `Cli.do_download_preset` (lines 155-177). -/
def do_download_preset (status : Status) (tokens : List String) : CmdOut :=
  if status ≠ Status.OPEN then noConn
  else
    match tokens with
    | [p] => { output := [], ops := [DeviceOp.downloadPreset p] }
    | [] => { output := [], ops := [DeviceOp.downloadPreset "SDECv2/a_output/downloaded_preset.json"] }
    | _ => { output := ["Usage: download_preset [path]"], ops := [] }

/-- cli.py `Cli.do_verify_preset` (lines 179-198).  `reference` is the
preset `Parser.from_file` loads from the downloaded-preset file;
`downloaded` is the preset the external verify downloads from the device. -/
def do_verify_preset (status : Status) (tokens : List String)
    (reference downloaded : Preset) : CmdOut :=
  if status ≠ Status.OPEN then noConn
  else if tokens.length ≠ 0 then { output := ["Usage: verify_preset"], ops := [] }
  else
    { output := [if verify_preset reference downloaded then "Valid Preset" else "Invalid Preset"],
      ops := [DeviceOp.verifyDownload] }

/-- cli.py `Cli.do_dashboard_dump` (lines 200-222). -/
def do_dashboard_dump (status : Status) (tokens : List String) (dump : Frame) : CmdOut :=
  if status ≠ Status.OPEN then noConn
  else if tokens.length ≠ 0 then { output := ["Usage: dashboard_dump"], ops := [] }
  else
    { output := dump.map (fun p => dash_render p.1 p.2),
      ops := [DeviceOp.dashboardDump] }

/-- The tail of cli.py `Cli.do_connect` once name and timeout are settled
(lines 268-280): init_comport with the upper-cased name and fixed baud rate
921600, then open_comport; `openOutcome` is what the external open returns
(`Except.error` = the exception branch). -/
def connectWith (name : String) (timeout : Int) (openOutcome : Except String Bool) : CmdOut :=
  let ops := [DeviceOp.init_comport (pyUpper name) 921600 timeout, DeviceOp.open_comport]
  match openOutcome with
  | Except.ok true =>
      { output := ["Successfully opened serial connection on port " ++ name], ops := ops }
  | Except.ok false =>
      { output := ["Failed to open serial connection on port " ++ name], ops := ops }
  | Except.error e =>
      { output := ["Failed to open serial connection on port " ++ name ++ ": " ++ e], ops := ops }

/-- cli.py `Cli.do_connect` (lines 240-280): one token = name with default
timeout 1; two tokens = name and timeout, rejected unless `int(timeout)`
succeeds and is positive; otherwise usage. -/
def do_connect (tokens : List String) (openOutcome : Except String Bool) : CmdOut :=
  match tokens with
  | [name] => connectWith name 1 openOutcome
  | [name, tstr] =>
      match pyInt? tstr with
      | some t =>
          if t ≤ 0 then { output := ["Timeout must be a positive integer (seconds)"], ops := [] }
          else connectWith name t openOutcome
      | none => { output := ["Timeout must be a positive integer (seconds)"], ops := [] }
  | _ => { output := ["Usage: connect <name> [timeout]"], ops := [] }

/-- cli.py `Cli.do_disconnect` (lines 282-306): usage check, the
initialized-comport check, then close_comport with success/failure
reporting.  Returns the printed lines and the resulting status. -/
def do_disconnect (status : Status) (tokens : List String) (initialized : Bool)
    (portName : String) : List String × Status :=
  if tokens.length ≠ 0 then (["Usage: disconnect"], status)
  else if !initialized then (["No initialized comport"], status)
  else
    match close_comport status with
    | (st2, true) =>
        (["Successfully closed serial connection on port " ++ portName], st2)
    | (st2, false) =>
        (["Failed to close serial connection on port " ++ portName], st2)

/-- Result of do_quit: whether a close was attempted, and the value returned
to the cmd loop (True terminates it). -/
structure QuitOut where
  attemptedClose : Bool
  returned : Bool
deriving DecidableEq, Repr

/-- cli.py `Cli.do_quit` (lines 308-319): try close_comport, swallow any
exception (`closeOutcome` = what the close attempt did), return True. -/
def do_quit (closeOutcome : Except String Bool) : QuitOut :=
  match closeOutcome with
  | Except.ok _ => { attemptedClose := true, returned := true }
  | Except.error _ => { attemptedClose := true, returned := true }

/-- cli.py `Cli.do_q` (lines 321-328): delegates to do_quit. -/
def do_q (closeOutcome : Except String Bool) : QuitOut :=
  do_quit closeOutcome

/-- Length of the digit rendering is at least one character. -/
theorem natChars_length_pos (n : Nat) : 1 ≤ (natChars n).length := by
  unfold natChars natCharsAux
  split
  · simp
  · simp

/-- A `:.2f` rendering is at least four characters long (integer digit,
point, two decimals), so it is never the three-character literal `0.0`. -/
theorem format2f_ne_zero_text (v : ℚ) : format2f v ≠ "0.0" := by
  intro h
  have hl : (format2f v).length = 3 := by rw [h]; rfl
  have h4 : 4 ≤ (format2f v).length := by
    show 4 ≤ (String.mk _).length
    simp only [String.length, List.length_append, List.length_cons, List.length_nil]
    have := natChars_length_pos ((ratRound (v * 100)).natAbs / 100)
    omega
  omega

/-- The `:.2f` rendering of zero. -/
theorem format2f_zero : format2f 0 = "0.00" := by
  have h : ratRound ((0 : ℚ) * 100) = 0 := by
    unfold ratRound
    rw [Int.floor_eq_iff]
    norm_num
  simp only [format2f, h]
  decide

/-- C1: every device-issuing command (sensor_dump, sensor_poll,
flash_extract, upload_preset, download_preset, verify_preset,
dashboard_dump) checks the session status first: when it is not Open the
command prints exactly "Error: No serial connection" and returns with no
device operation performed, whatever its arguments and whatever the device
would have answered. -/
theorem no_connection_guard : ∀ (status : Status), status ≠ Status.OPEN →
    ∀ (tokens : List String) (dump : Frame) (dev : Device)
      (tpoll : Int → List Frame) (reference downloaded : Preset),
    do_sensor_dump status tokens dump = noConn
    ∧ do_sensor_poll status tokens dev tpoll = noConn
    ∧ do_flash_extract status tokens = noConn
    ∧ do_upload_preset status tokens = noConn
    ∧ do_download_preset status tokens = noConn
    ∧ do_verify_preset status tokens reference downloaded = noConn
    ∧ do_dashboard_dump status tokens dump = noConn := by
  intro status h tokens dump dev tpoll reference downloaded
  refine ⟨?_, ?_, ?_, ?_, ?_, ?_, ?_⟩ <;>
    simp only [do_sensor_dump, do_sensor_poll, do_flash_extract, do_upload_preset,
      do_download_preset, do_verify_preset, do_dashboard_dump, if_pos h]

/-- Witness for C1 at the Closed state with concrete arguments. -/
theorem no_connection_guard_witness :
    do_sensor_dump Status.CLOSED [] [] = noConn
    ∧ do_sensor_poll Status.CLOSED [] ⟨fun _ => []⟩ (fun _ => []) = noConn
    ∧ do_flash_extract Status.CLOSED [] = noConn
    ∧ do_upload_preset Status.CLOSED [] = noConn
    ∧ do_download_preset Status.CLOSED [] = noConn
    ∧ do_verify_preset Status.CLOSED [] [] [] = noConn
    ∧ do_dashboard_dump Status.CLOSED [] [] = noConn :=
  no_connection_guard Status.CLOSED (by decide) [] [] ⟨fun _ => []⟩ (fun _ => []) [] []

/-- C2: verify returns true iff the downloaded preset equals the reference
field for field; mutating exactly one field of the reference makes it
return false; and the CLI prints "Valid Preset" exactly in the equal case. -/
theorem verify_preset_iff_field_equal : ∀ (reference downloaded : Preset),
    (verify_preset reference downloaded = true ↔ downloaded = reference)
    ∧ (∀ (pre post : Preset) (fld : String × Int) (v : Int), v ≠ fld.2 →
        verify_preset (pre ++ fld :: post) (pre ++ (fld.1, v) :: post) = false)
    ∧ ((do_verify_preset Status.OPEN [] reference downloaded).output = ["Valid Preset"]
        ↔ downloaded = reference) := by
  intro reference downloaded
  have hiff : verify_preset reference downloaded = true ↔ downloaded = reference := by
    simp [verify_preset]
  refine ⟨hiff, ?_, ?_⟩
  · intro pre post fld v hv
    simp only [verify_preset, beq_eq_false_iff_ne, ne_eq]
    intro h
    have h2 := List.append_cancel_left h
    have h3 : (fld.1, v) = fld := (List.cons.injEq _ _ _ _).mp h2 |>.1
    exact hv (congrArg Prod.snd h3)
  · have hout : (do_verify_preset Status.OPEN [] reference downloaded).output
        = [if verify_preset reference downloaded then "Valid Preset" else "Invalid Preset"] := rfl
    rw [hout, ← hiff]
    cases hv : verify_preset reference downloaded
    · decide
    · decide

/-- Count-mode polling produces one frame per iteration. -/
theorem pollCount_length (dev : Device) : ∀ (n k : Nat), (pollCount dev k n).length = n := by
  intro n
  induction n with
  | zero => intro k; rfl
  | succ m ih =>
      intro k
      show (dev.frames k :: pollCount dev (k + 1) m).length = m + 1
      rw [List.length_cons, ih]

/-- C3: poll with count N yields exactly N frames for every N ≥ 0, and the
CLI's count branch performs exactly one device dump per frame, so count 0
yields empty output and zero device round-trips. -/
theorem poll_count_exact : ∀ (dev : Device) (n : Nat) (tpoll : Int → List Frame)
    (tokens : List String) (c : Int),
    (pollCount dev 0 n).length = n
    ∧ pollCount dev 0 0 = []
    ∧ (parsePoll tokens = Except.ok (none, some c) →
        (do_sensor_poll Status.OPEN tokens dev tpoll).ops.length = c.toNat
        ∧ (c = 0 → do_sensor_poll Status.OPEN tokens dev tpoll = { output := [], ops := [] })) := by
  intro dev n tpoll tokens c
  refine ⟨pollCount_length dev n 0, rfl, ?_⟩
  intro hp
  have hbranch : do_sensor_poll Status.OPEN tokens dev tpoll =
      { output := ((pollCount dev 0 c.toNat).map
          (fun fr => fr.map (fun p => renderReadout p.1 p.2))).flatten,
        ops := (pollCount dev 0 c.toNat).map (fun _ => DeviceOp.sentryDump) } := by
    unfold do_sensor_poll
    rw [if_neg (by decide), hp]
  constructor
  · rw [hbranch]
    simp only [List.length_map]
    exact pollCount_length dev c.toNat 0
  · intro hc
    rw [hbranch, hc]
    rfl

/-- C5 counterexample: connecting with the port name "/dev/ttyusb0"
initializes the channel with "/DEV/TTYUSB0", not with the caller-supplied
identifier. -/
theorem connect_name_counterexample :
    (do_connect ["/dev/ttyusb0"] (Except.ok true)).ops =
      [DeviceOp.init_comport "/DEV/TTYUSB0" 921600 1, DeviceOp.open_comport]
    ∧ ¬ (do_connect ["/dev/ttyusb0"] (Except.ok true)).ops =
      [DeviceOp.init_comport "/dev/ttyusb0" 921600 1, DeviceOp.open_comport] := by
  decide

/-- C5 (amended): for every port name, connect initializes the channel with
the upper-cased caller-supplied name and baud rate 921600, before the open
attempt; likewise when a valid positive timeout is supplied. -/
theorem connect_inits_uppercased_name : ∀ (name tstr : String) (t : Int)
    (oc : Except String Bool),
    (do_connect [name] oc).ops =
      [DeviceOp.init_comport (pyUpper name) 921600 1, DeviceOp.open_comport]
    ∧ (pyInt? tstr = some t → 0 < t →
        (do_connect [name, tstr] oc).ops =
          [DeviceOp.init_comport (pyUpper name) 921600 t, DeviceOp.open_comport]) := by
  intro name tstr t oc
  constructor
  · show (connectWith name 1 oc).ops = _
    unfold connectWith
    cases oc with
    | ok b => cases b <;> rfl
    | error e => rfl
  · intro hpi hpos
    have hm : do_connect [name, tstr] oc =
        (match pyInt? tstr with
          | some t2 =>
              if t2 ≤ 0 then
                ({ output := ["Timeout must be a positive integer (seconds)"], ops := [] } : CmdOut)
              else connectWith name t2 oc
          | none => { output := ["Timeout must be a positive integer (seconds)"], ops := [] }) := rfl
    have hsome : do_connect [name, tstr] oc =
        if t ≤ 0 then
          ({ output := ["Timeout must be a positive integer (seconds)"], ops := [] } : CmdOut)
        else connectWith name t oc := by
      rw [hm, hpi]
    rw [hsome, if_neg (by omega)]
    unfold connectWith
    cases oc with
    | ok b => cases b <;> rfl
    | error e => rfl

/-- C6: a supplied timeout that is not a positive integer (non-numeric,
zero, or negative) makes connect print the rejection message and return
before any channel initialization or I/O. -/
theorem connect_rejects_nonpositive_timeout : ∀ (name tstr : String)
    (oc : Except String Bool),
    (∀ t : Int, pyInt? tstr = some t → t ≤ 0) →
    do_connect [name, tstr] oc =
      { output := ["Timeout must be a positive integer (seconds)"], ops := [] } := by
  intro name tstr oc h
  have hm : do_connect [name, tstr] oc =
      (match pyInt? tstr with
        | some t2 =>
            if t2 ≤ 0 then
              ({ output := ["Timeout must be a positive integer (seconds)"], ops := [] } : CmdOut)
            else connectWith name t2 oc
        | none => { output := ["Timeout must be a positive integer (seconds)"], ops := [] }) := rfl
  cases hpi : pyInt? tstr with
  | none => rw [hm, hpi]
  | some t =>
      have hsome : do_connect [name, tstr] oc =
          if t ≤ 0 then
            ({ output := ["Timeout must be a positive integer (seconds)"], ops := [] } : CmdOut)
          else connectWith name t oc := by
        rw [hm, hpi]
      rw [hsome, if_pos (h t hpi)]

/-- Witness for C6 at the concrete zero timeout "0". -/
theorem connect_rejects_nonpositive_timeout_witness :
    do_connect ["COM3", "0"] (Except.ok true) =
      { output := ["Timeout must be a positive integer (seconds)"], ops := [] } :=
  connect_rejects_nonpositive_timeout "COM3" "0" (Except.ok true) (by
    intro t ht
    have h0 : pyInt? "0" = some 0 := by decide
    rw [h0] at ht
    injection ht with h2
    omega)

/-- C7: close is idempotent — closing an already-closed session is a no-op
success — and disconnect on a closed session reports success, not failure,
and cannot raise (the model is a total function). -/
theorem close_idempotent_success : ∀ (s : Status) (port : String),
    close_comport Status.CLOSED = (Status.CLOSED, true)
    ∧ close_comport (close_comport s).1 = close_comport s
    ∧ do_disconnect Status.CLOSED [] true port =
        (["Successfully closed serial connection on port " ++ port], Status.CLOSED) := by
  intro s port
  exact ⟨rfl, rfl, rfl⟩

/-- C8: in sensor_dump and in each sensor_poll frame, a readout of exactly
zero and an absent readout render to the identical line
"name: 0.0 unit" (the truthiness test conflates them). -/
theorem absent_and_zero_render_alike : ∀ (s : Sensor),
    renderReadout s (some 0) = s.name ++ ": 0.0 " ++ s.unit
    ∧ renderReadout s none = s.name ++ ": 0.0 " ++ s.unit
    ∧ (do_sensor_dump Status.OPEN [] [(s, some 0)]).output
        = (do_sensor_dump Status.OPEN [] [(s, none)]).output
    ∧ (do_sensor_poll Status.OPEN ["--count", "1"] ⟨fun _ => [(s, some 0)]⟩ (fun _ => [])).output
        = (do_sensor_poll Status.OPEN ["--count", "1"] ⟨fun _ => [(s, none)]⟩ (fun _ => [])).output := by
  intro s
  exact ⟨rfl, rfl, rfl, rfl⟩

/-- C9: dashboard_dump tests `is not None`, so the literal value text "0.0"
is printed exactly when the readout is absent, while a present zero reading
prints through the numeric format as "0.00". -/
theorem dashboard_distinguishes_absent_from_zero : ∀ (s : Sensor) (r : Option ℚ),
    dash_render s r = s.name ++ ": " ++ dashValueText r ++ " " ++ s.unit
    ∧ (dashValueText r = "0.0" ↔ r = none)
    ∧ dashValueText (some 0) = "0.00"
    ∧ (do_dashboard_dump Status.OPEN [] [(s, r)]).output = [dash_render s r] := by
  intro s r
  refine ⟨rfl, ?_, format2f_zero, rfl⟩
  cases r with
  | none => simp [dashValueText]
  | some v =>
      simp only [dashValueText]
      constructor
      · intro h
        exact absurd h (format2f_ne_zero_text v)
      · intro h
        cases h

/-- C10: quit (and its alias q) always returns True to the command loop, in
every session state: the close attempt comes first and any exception it
raises is swallowed, so no close outcome can prevent exit. -/
theorem quit_always_returns_true : ∀ (oc : Except String Bool),
    (do_quit oc).returned = true
    ∧ (do_quit oc).attemptedClose = true
    ∧ do_q oc = do_quit oc := by
  intro oc
  cases oc with
  | ok b => exact ⟨rfl, rfl, rfl⟩
  | error e => exact ⟨rfl, rfl, rfl⟩

/-- Invariants of a successful sensor_poll argument parse: option values only
ever become set, the two options are never both set, an option mentioned in
the tokens ends set, and an option not mentioned keeps its starting value. -/
theorem parsePollTokens_ok_props : ∀ (tokens : List String) (t c : Option Int)
    (t2 c2 : Option Int), parsePollTokens tokens t c = Except.ok (t2, c2) →
    (t.isSome = true → t2.isSome = true)
    ∧ (c.isSome = true → c2.isSome = true)
    ∧ (¬(t.isSome = true ∧ c.isSome = true) → ¬(t2.isSome = true ∧ c2.isSome = true))
    ∧ ("--timeout" ∈ tokens → t2.isSome = true)
    ∧ ("--count" ∈ tokens → c2.isSome = true)
    ∧ ("--timeout" ∉ tokens → t2 = t)
    ∧ ("--count" ∉ tokens → c2 = c) := by
  intro tokens t c
  induction tokens, t, c using parsePollTokens.induct with
  | case1 t c =>
      intro t2 c2 hok
      simp only [parsePollTokens, Except.ok.injEq, Prod.mk.injEq] at hok
      obtain ⟨h1, h2⟩ := hok
      subst h1
      subst h2
      refine ⟨id, id, id, ?_, ?_, fun _ => rfl, fun _ => rfl⟩
      · intro hm
        exact absurd hm (List.not_mem_nil _)
      · intro hm
        exact absurd hm (List.not_mem_nil _)
  | case2 t c =>
      intro t2 c2 hok
      simp [parsePollTokens] at hok
  | case3 t c v rest2 hv =>
      intro t2 c2 hok
      simp [parsePollTokens, hv] at hok
  | case4 t c v rest2 n hv hc =>
      intro t2 c2 hok
      simp [parsePollTokens, hv, hc] at hok
  | case5 t c v rest2 n hv hc ih =>
      intro t2 c2 hok
      simp only [parsePollTokens, if_pos rfl, hv, hc, if_neg] at hok
      obtain ⟨m1, m2, inv, memT, memC, nmemT, nmemC⟩ := ih t2 c2 hok
      refine ⟨fun _ => m1 rfl, m2, ?_, fun _ => m1 rfl, ?_, ?_, ?_⟩
      · intro _
        exact inv (fun hb => hc hb.2)
      · intro hm
        rcases List.mem_cons.mp hm with h | h
        · exact absurd h (by decide)
        · rcases List.mem_cons.mp h with h2 | h2
          · exfalso
            rw [← h2] at hv
            have hnone : pyInt? "--count" = none := by decide
            rw [hnone] at hv
            cases hv
          · exact memC h2
      · intro hnm
        exact absurd (List.mem_cons_self _ _) hnm
      · intro hnm
        apply nmemC
        intro hin
        exact hnm (List.mem_cons.mpr (Or.inr (List.mem_cons.mpr (Or.inr hin))))
  | case6 t c hne =>
      intro t2 c2 hok
      simp [parsePollTokens] at hok
  | case7 t c v rest2 hv hne =>
      intro t2 c2 hok
      simp [parsePollTokens, hv] at hok
  | case8 t c v rest2 n hv ht hne =>
      intro t2 c2 hok
      simp [parsePollTokens, hv, ht] at hok
  | case9 t c v rest2 n hv ht hne ih =>
      intro t2 c2 hok
      rw [parsePollTokens] at hok
      rw [if_neg (show ("--count" : String) ≠ "--timeout" from by decide), if_pos rfl] at hok
      simp only [hv] at hok
      rw [if_neg ht] at hok
      obtain ⟨m1, m2, inv, memT, memC, nmemT, nmemC⟩ := ih t2 c2 hok
      refine ⟨m1, fun _ => m2 rfl, ?_, ?_, fun _ => m2 rfl, ?_, ?_⟩
      · intro _
        exact inv (fun hb => ht hb.1)
      · intro hm
        rcases List.mem_cons.mp hm with h | h
        · exact absurd h (by decide)
        · rcases List.mem_cons.mp h with h2 | h2
          · exfalso
            rw [← h2] at hv
            have hnone : pyInt? "--timeout" = none := by decide
            rw [hnone] at hv
            cases hv
          · exact memT h2
      · intro hnm
        apply nmemT
        intro hin
        exact hnm (List.mem_cons.mpr (Or.inr (List.mem_cons.mpr (Or.inr hin))))
      · intro hnm
        exact absurd (List.mem_cons_self _ _) hnm
  | case10 tok rest t c h1 h2 =>
      intro t2 c2 hok
      rw [parsePollTokens.eq_def] at hok
      simp [h1, h2] at hok

/-- A successful full parse also passed the required-group check: at least
one of the two options ended set. -/
theorem parsePoll_ok_props : ∀ (tokens : List String) (t c : Option Int),
    parsePoll tokens = Except.ok (t, c) →
    parsePollTokens tokens none none = Except.ok (t, c)
    ∧ (t.isSome = true ∨ c.isSome = true) := by
  intro tokens t c h
  unfold parsePoll at h
  cases hpt : parsePollTokens tokens none none with
  | error e =>
      rw [hpt] at h
      simp at h
  | ok r =>
      obtain ⟨a, b⟩ := r
      rw [hpt] at h
      cases a with
      | none =>
          cases b with
          | none => simp at h
          | some bv =>
              simp only [Except.ok.injEq, Prod.mk.injEq] at h
              obtain ⟨h1, h2⟩ := h
              subst h1
              subst h2
              exact ⟨rfl, Or.inr rfl⟩
      | some av =>
          cases b with
          | none =>
              simp only [Except.ok.injEq, Prod.mk.injEq] at h
              obtain ⟨h1, h2⟩ := h
              subst h1
              subst h2
              exact ⟨rfl, Or.inl rfl⟩
          | some bv =>
              simp only [Except.ok.injEq, Prod.mk.injEq] at h
              obtain ⟨h1, h2⟩ := h
              subst h1
              subst h2
              exact ⟨rfl, Or.inl rfl⟩

/-- C4: a sensor_poll argument line supplying both of --count and --timeout,
or neither, is rejected with the usage message before any device operation;
a parse that succeeds (the only way polling proceeds) supplied exactly one
of the two. -/
theorem sensor_poll_requires_exactly_one : ∀ (tokens : List String) (dev : Device)
    (tpoll : Int → List Frame),
    (("--timeout" ∈ tokens ∧ "--count" ∈ tokens)
        ∨ ("--timeout" ∉ tokens ∧ "--count" ∉ tokens) →
      do_sensor_poll Status.OPEN tokens dev tpoll =
        { output := ["Usage: sensor_poll <--timeout> <time> | <--count> <count>"], ops := [] })
    ∧ (∀ (t c : Option Int), parsePoll tokens = Except.ok (t, c) →
        (("--timeout" ∈ tokens ∧ "--count" ∉ tokens)
          ∨ ("--count" ∈ tokens ∧ "--timeout" ∉ tokens))) := by
  intro tokens dev tpoll
  constructor
  · intro hcase
    have herr : ∀ r, parsePoll tokens ≠ Except.ok r := by
      rintro ⟨t, c⟩ hok
      obtain ⟨hpt, hreq⟩ := parsePoll_ok_props tokens t c hok
      obtain ⟨m1, m2, inv, memT, memC, nmemT, nmemC⟩ :=
        parsePollTokens_ok_props tokens none none t c hpt
      rcases hcase with ⟨hT, hC⟩ | ⟨hT, hC⟩
      · exact inv (by simp) ⟨memT hT, memC hC⟩
      · have h1 : t = none := nmemT hT
        have h2 : c = none := nmemC hC
        rw [h1, h2] at hreq
        rcases hreq with h | h <;> simp at h
    unfold do_sensor_poll
    rw [if_neg (by decide)]
    cases hpp : parsePoll tokens with
    | error e => rfl
    | ok r => exact absurd hpp (herr r)
  · intro t c hok
    obtain ⟨hpt, hreq⟩ := parsePoll_ok_props tokens t c hok
    obtain ⟨m1, m2, inv, memT, memC, nmemT, nmemC⟩ :=
      parsePollTokens_ok_props tokens none none t c hpt
    by_cases hT : "--timeout" ∈ tokens <;> by_cases hC : "--count" ∈ tokens
    · exact absurd ⟨memT hT, memC hC⟩ (inv (by simp))
    · exact Or.inl ⟨hT, hC⟩
    · exact Or.inr ⟨hC, hT⟩
    · have h1 : t = none := nmemT hT
      have h2 : c = none := nmemC hC
      rw [h1, h2] at hreq
      rcases hreq with h | h <;> simp at h
